import Mathlib

/-!
Verification development for the unified cross-venue arbitrage strategy
(`src/core/unified_arbitrage_strategy.py`) and the Backpack venue adapter
(`src/core/exchange_adapters.py`).

Prices and quantities are modelled as rationals (the Python code uses
floats, but every computation verified here is exact arithmetic on
literal-derived values).  Order books are modelled as the lists of level
prices that the strategy actually reads (the Python book entries are
`[price, size]` pairs and the code only ever reads index 0, the price).
-/

/-- One of the two venues of an arbitrage position: venue A or venue B. -/
inductive Leg where
  | A
  | B
deriving DecidableEq, Repr

/-- An order book as consumed by the strategy: the per-level prices of the
bid side (descending) and the ask side (ascending). -/
structure Book where
  bids : List ℚ
  asks : List ℚ
deriving DecidableEq, Repr

/-- Shallow embedding of `UnifiedArbitrageStrategy.get_spread`.  The two
arguments are the results of the two concurrent order-book fetches
(`none` models a falsy book, i.e. a failed fetch).  The Python body is
wrapped in a try/except that returns the all-zero tuple whenever either
book is falsy or indexing the best levels raises, so every degenerate
case collapses to `(0, 0, 0, 0, 0)`.  Otherwise it returns
`(spread_1, spread_2, best_spread, price_a_mid, price_b_mid)` with
`spread_1 = Bbid0 - Aask0`, `spread_2 = Abid0 - Bask0`,
`best_spread = max spread_1 spread_2`, and each mid as
`(bid0 + ask0) / 2`. -/
def get_spread (book_a book_b : Option Book) : ℚ × ℚ × ℚ × ℚ × ℚ :=
  match book_a, book_b with
  | some a, some b =>
    match a.bids, a.asks, b.bids, b.asks with
    | pa :: _, qa :: _, pb :: _, qb :: _ =>
      (pb - qa, pa - qb, max (pb - qa) (pa - qb), (pa + qa) / 2, (pb + qb) / 2)
    | _, _, _, _ => (0, 0, 0, 0, 0)
  | _, _ => (0, 0, 0, 0, 0)

/-- The normalized order-status record returned by the venue adapters
(`{status, filled, amount, remaining}`); the strategy reads only the
`status` string. -/
structure OrderStatusInfo where
  status : String
  filled : ℚ := 0
  amount : ℚ := 0
  remaining : ℚ := 0
deriving DecidableEq, Repr

/-- ASCII lower-casing of one character, modelling Python `str.lower`
on the ASCII status vocabulary the adapters produce. -/
def lower_char (c : Char) : Char :=
  if c.toNat ≥ 65 ∧ c.toNat ≤ 90 then Char.ofNat (c.toNat + 32) else c

/-- ASCII lower-casing of a string, modelling Python `str.lower` on the
ASCII status vocabulary the adapters produce. -/
def lower_str (s : String) : String :=
  ⟨s.data.map lower_char⟩

/-- Shallow embedding of `UnifiedArbitrageStrategy._is_order_filled`:
a falsy status record is not filled; otherwise the lower-cased `status`
field must be one of `filled`, `closed`, `executed`. -/
def is_order_filled (st : Option OrderStatusInfo) : Bool :=
  match st with
  | none => false
  | some s => lower_str s.status ∈ ["filled", "closed", "executed"]

/-- The possible outcomes of the Backpack order-status HTTP query, as
branched on by `BackpackAdapter.get_order_status`: a 200 response carrying
the raw order fields, a 404, any other HTTP status code, or a raised
exception. -/
inductive BpOrderQueryResponse where
  | ok (status : String) (executedQuantity quantity : ℚ)
  | notFound
  | httpError (code : Nat)
  | exn
deriving DecidableEq, Repr

/-- The status-vocabulary mapping inside `BackpackAdapter.get_order_status`
for a 200 response: the raw status is lower-cased, then mapped onto the
internal vocabulary.  (The comparison list literally contains the
mixed-case string `partiallyFilled`, copied verbatim from the source.) -/
def backpack_normalize_status (raw : String) : String :=
  let status := lower_str raw
  if status ∈ ["new", "open", "partiallyFilled"] then "open"
  else if status ∈ ["filled", "executed"] then "filled"
  else if status = "cancelled" then "cancelled"
  else status

/-- Shallow embedding of `BackpackAdapter.get_order_status`: a 200 response
is normalized field by field; a 404 is reported as
`{status: "filled", filled: 0, amount: 0, remaining: 0}`
("Order not found - possibly filled"); any other HTTP code or an
exception yields a record with status `error`. -/
def backpack_get_order_status (resp : BpOrderQueryResponse) : OrderStatusInfo :=
  match resp with
  | .ok status ex q =>
      { status := backpack_normalize_status status,
        filled := ex, amount := q, remaining := q - ex }
  | .notFound =>
      { status := "filled", filled := 0, amount := 0, remaining := 0 }
  | .httpError _ => { status := "error" }
  | .exn => { status := "error" }

/-- A reference to an order held by the monitor: the original maker order
of a leg, or the compensating (hedge) order placed for a leg. -/
inductive OrderRef where
  | legOrder (l : Leg)
  | hedgeOrder (l : Leg)
deriving DecidableEq, Repr

/-- A venue operation issued by the strategy, tagged with the leg or order
it concerns. -/
inductive VenueOp where
  | fetchBook (l : Leg)
  | placeLimit (l : Leg)
  | placeHedge (l : Leg)
  | cancelOrder (o : OrderRef)
  | queryStatus (o : OrderRef)
deriving DecidableEq, Repr

/-- The venue operations issued by the single-sided hedge branch of
`UnifiedArbitrageStrategy._monitor_and_hedge`, from the cancellation of
the losing leg up to and including the submission of the compensating
order: `_cancel_order` on the leg's original order, the forced order-book
refresh inside `_place_market_order`, and the placement of the
penetrating (escalated-taker) order.  The Boolean result of
`_cancel_order` is received by the caller but never inspected — the
Python line discards the returned value — so the list is the same for
both values of `cancelOk`.  (The passive order-book read inside
`_get_smart_order_price`, which may be answered from the 50 ms cache, and
the fill-waiting on the new hedge order after its placement are outside
the scope of this list.) -/
def hedge_ops_until_placement (l : Leg) (cancelOk : Bool) : List VenueOp :=
  match cancelOk with
  | true => [.cancelOrder (.legOrder l), .fetchBook l, .placeHedge l]
  | false => [.cancelOrder (.legOrder l), .fetchBook l, .placeHedge l]

/-- Which branch of the per-tick dispatch in `_monitor_and_hedge` fires:
the first branch tests leg A (`status_a` filled and flag `filled_a` not
yet set); only if that test fails is leg B tested; otherwise no branch
fires.  The Python code has no separate case for both statuses reporting
filled in the same tick. -/
inductive TickBranch where
  | branchA
  | branchB
  | neither
deriving DecidableEq, Repr

/-- The branch selection of one iteration of the `_monitor_and_hedge`
loop, transcribed from the `if/elif` chain: `filled_a`/`filled_b` are the
loop flags and `status_a`/`status_b` the two freshly polled status
records. -/
def tick_branch (filled_a filled_b : Bool)
    (status_a status_b : Option OrderStatusInfo) : TickBranch :=
  if is_order_filled status_a && !filled_a then .branchA
  else if is_order_filled status_b && !filled_b then .branchB
  else .neither

/-- The venue operations (cancellations, hedge placements; see
`hedge_ops_until_placement` for scope) issued by one iteration of the
`_monitor_and_hedge` loop after the two status polls, as a function of
the loop flags, the two polled statuses, and the (unused) cancel result.
Branch A hedges leg B exactly when the `filled_b` flag is unset, and
symmetrically for branch B. -/
def tick_ops (filled_a filled_b : Bool)
    (status_a status_b : Option OrderStatusInfo) (cancelOk : Bool) : List VenueOp :=
  match tick_branch filled_a filled_b status_a status_b with
  | .branchA => if filled_b then [] else hedge_ops_until_placement .B cancelOk
  | .branchB => if filled_a then [] else hedge_ops_until_placement .A cancelOk
  | .neither => []

/-- An event of an execution trace: a venue call starting or finishing. -/
inductive Ev where
  | start (op : VenueOp)
  | fin (op : VenueOp)
deriving DecidableEq, Repr

/-- The syntactic concurrency structure of a fragment of the strategy's
async code: a single awaited venue call, sequential composition (the
second part starts only after the first completes), or an
`asyncio.gather` of two parts. -/
inductive AsyncProg where
  | call (op : VenueOp)
  | seq (p q : AsyncProg)
  | gather (p q : AsyncProg)
deriving Repr

/-- All interleavings of two event lists, preserving the order within
each list, computed with an explicit fuel argument (structural recursion
on the fuel, so the kernel can evaluate it); the fuel-exhausted arm is
never reached when the fuel is at least the combined length. -/
def interleavings_go : Nat → List Ev → List Ev → List (List Ev)
  | _, [], ys => [ys]
  | _, x :: xs, [] => [x :: xs]
  | 0, x :: xs, y :: ys => [x :: xs ++ y :: ys]
  | fuel + 1, x :: xs, y :: ys =>
      (interleavings_go fuel xs (y :: ys)).map (x :: ·) ++
      (interleavings_go fuel (x :: xs) ys).map (y :: ·)

/-- All interleavings of two event lists, preserving the order within
each list; used to give `asyncio.gather` its set of possible traces. -/
def interleavings (xs ys : List Ev) : List (List Ev) :=
  interleavings_go (xs.length + ys.length) xs ys

/-- The possible event traces of an async fragment: one awaited call
emits its start then its finish; sequential composition concatenates;
`gather` interleaves. -/
def traces : AsyncProg → List (List Ev)
  | .call op => [[.start op, .fin op]]
  | .seq p q => (traces p).flatMap fun t₁ => (traces q).map (t₁ ++ ·)
  | .gather p q =>
      (traces p).flatMap fun t₁ => (traces q).flatMap fun t₂ => interleavings t₁ t₂

/-- The largest number of venue calls simultaneously in flight along one
trace (scanning left to right, counting starts minus finishes). -/
def max_in_flight_trace : List Ev → Nat → Nat → Nat
  | [], _, m => m
  | .start _ :: rest, c, m => max_in_flight_trace rest (c + 1) (max m (c + 1))
  | .fin _ :: rest, c, m => max_in_flight_trace rest (c - 1) m

/-- The largest number of venue calls that can be simultaneously in
flight in any possible trace of the fragment: `≥ 2` means the fragment
can issue two calls concurrently, `1` means issuance is strictly
sequential. -/
def max_in_flight (p : AsyncProg) : Nat :=
  ((traces p).map (fun t => max_in_flight_trace t 0 0)).foldr max 0

/-- The pair of order-book fetches inside `get_spread`
(`asyncio.gather(adapter_a.get_orderbook(...), adapter_b.get_orderbook(...))`). -/
def get_spread_fetch_prog : AsyncProg :=
  .gather (.call (.fetchBook .A)) (.call (.fetchBook .B))

/-- The pair of opening maker-limit placements in `execute_arbitrage`
(`order_a = await self._place_limit_order(...)` followed by
`order_b = await self._place_limit_order(...)`): two sequential awaits. -/
def opening_placement_prog : AsyncProg :=
  .seq (.call (.placeLimit .A)) (.call (.placeLimit .B))

/-- The pair of per-tick status polls in `_monitor_and_hedge`
(`status_a = await self._get_order_status(...)` followed by
`status_b = await self._get_order_status(...)`): two sequential awaits. -/
def monitor_poll_prog : AsyncProg :=
  .seq (.call (.queryStatus (.legOrder .A))) (.call (.queryStatus (.legOrder .B)))

/-- The environment seen by `_wait_for_order_fill_with_retry`, indexed by
the retry round: whether the currently waited-on order reports filled at
some poll inside the 30 s window of round `r`, whether the forced
order-book refresh for the aggressive reprice succeeds, and whether the
aggressive resubmission returns a truthy order with an order id. -/
structure RetryEnv where
  fillsDuringWait : Nat → Bool
  bookOk : Nat → Bool
  resubmitOk : Nat → Bool

/-- What a run of `_wait_for_order_fill_with_retry` did: its Boolean
return value, how many bounded 30 s wait windows it executed, and how
many aggressive resubmissions it attempted. -/
structure RetryTrace where
  filled : Bool
  waitWindows : Nat
  resubmits : Nat
deriving DecidableEq, Repr

/-- Shallow embedding of the `for retry in range(max_retries)` loop of
`UnifiedArbitrageStrategy._wait_for_order_fill_with_retry`, by recursion
on the number of remaining rounds (`remaining = max_retries - r`).
Each round waits one bounded 30 s window; a fill returns `True`.
Otherwise, only while `retry < max_retries - 1` (i.e. `remaining > 1`)
does the code cancel and resubmit more aggressively: a failed book fetch
or a falsy resubmission returns `False` immediately, and falling out of
the loop returns `False`. -/
def wait_retry_go (env : RetryEnv) : Nat → Nat → RetryTrace
  | 0, _ => ⟨false, 0, 0⟩
  | remaining + 1, r =>
    if env.fillsDuringWait r then ⟨true, 1, 0⟩
    else if remaining = 0 then ⟨false, 1, 0⟩
    else if !env.bookOk r then ⟨false, 1, 0⟩
    else if !env.resubmitOk r then ⟨false, 1, 1⟩
    else
      let rest := wait_retry_go env remaining (r + 1)
      ⟨rest.filled, rest.waitWindows + 1, rest.resubmits + 1⟩

/-- `_wait_for_order_fill_with_retry` with its default budget
`max_retries = 3`, started at round 0. -/
def wait_for_order_fill_with_retry (env : RetryEnv) (max_retries : Nat := 3) : RetryTrace :=
  wait_retry_go env max_retries 0

/-- The fields of `ArbitragePosition` that the verified claims depend on,
plus the dynamically attached `_actual_price_a` / `_actual_price_b`
attributes set by the market-hedge branch of `_monitor_and_hedge`
(absent, i.e. `none`, when the corresponding leg filled as a maker). -/
structure ArbitragePosition where
  amount : ℚ
  entry_price_a : ℚ
  entry_price_b : ℚ
  entry_spread : ℚ
  strategy_type : String := "convergence"
  status : String := "pending"
  actual_price_a : Option ℚ := none
  actual_price_b : Option ℚ := none
deriving DecidableEq, Repr

/-- Shallow embedding of
`UnifiedArbitrageStrategy._update_actual_entry_prices`, run once the
monitor reports both legs filled: each entry price is replaced by the
stored actual hedge price when present (`getattr` default: the existing
entry price), and `entry_spread` is recomputed as the absolute
difference of the two resulting prices. -/
def update_actual_entry_prices (p : ArbitragePosition) : ArbitragePosition :=
  let pa := p.actual_price_a.getD p.entry_price_a
  let pb := p.actual_price_b.getD p.entry_price_b
  { p with entry_price_a := pa, entry_price_b := pb, entry_spread := |pa - pb| }

/-- The fold performed at the end of a successful
`UnifiedArbitrageStrategy._add_position`: the add-on trades the same
`amount` again at spread `add_spread`; the stored `entry_spread` becomes
the quantity-weighted average and `amount` grows, while the per-leg
entry prices are left untouched by the Python code. -/
def add_position_fold (p : ArbitragePosition) (add_amount add_spread : ℚ) :
    ArbitragePosition :=
  let new_amount := p.amount + add_amount
  { p with
    entry_spread := (p.entry_spread * p.amount + add_spread * add_amount) / new_amount,
    amount := new_amount }

/-- The tail of `UnifiedArbitrageStrategy.execute_arbitrage` after the
monitor returns: on success the position is appended to the active list
and its status set to `"opened"`; on failure the position object is left
untouched (status still `"pending"`) and it is never appended. -/
def execute_arbitrage_finalize (p : ArbitragePosition)
    (positions : List ArbitragePosition) (success : Bool) :
    ArbitragePosition × List ArbitragePosition × Bool :=
  if success then
    let p' := { p with status := "opened" }
    (p', positions ++ [p'], true)
  else (p, positions, false)

/-- The threshold and add-on configuration set in
`UnifiedArbitrageStrategy.__init__`, with the literal defaults of the
source (`min_hold_time = 60`, `allow_add_position = True`,
`has_added_position = False`, `add_position_hold_time = 30`). -/
structure StrategyConfig where
  min_hold_time : ℚ := 60
  allow_add_position : Bool := true
  has_added_position : Bool := false
  add_position_hold_time : ℚ := 30
deriving DecidableEq, Repr

/-- The `should_add` computation of `_check_position_status` on the mids
observed by its first `get_spread` call: convergence adds when the
current absolute mid difference exceeds 120 % of the entry spread,
divergence when it falls below 80 %; any other strategy string never
adds. -/
def should_add (p : ArbitragePosition) (obs : ℚ × ℚ) : Bool :=
  if p.strategy_type = "convergence" then
    decide ((6 / 5 : ℚ) * p.entry_spread < |obs.1 - obs.2|)
  else if p.strategy_type = "divergence" then
    decide (|obs.1 - obs.2| < (4 / 5 : ℚ) * p.entry_spread)
  else false

/-- The decision taken by one call of
`UnifiedArbitrageStrategy._check_position_status`. -/
inductive PosAction where
  | protect
  | addOn
  | skipBadSpread
  | closePos
  | hold
deriving DecidableEq, Repr

/-- The close-or-hold tail of `_check_position_status`, on the mids
observed by its second `get_spread` call: a zero mid (the degradation
signal of `get_spread`) skips the decision for this tick; otherwise
convergence closes when the current absolute mid difference drops below
90 % of the entry spread, and divergence closes when it exceeds 110 %. -/
def close_decision (p : ArbitragePosition) (obs : ℚ × ℚ) : PosAction :=
  if obs.1 = 0 ∨ obs.2 = 0 then .skipBadSpread
  else if p.strategy_type = "convergence" ∧ |obs.1 - obs.2| < (9 / 10 : ℚ) * p.entry_spread then
    .closePos
  else if p.strategy_type = "divergence" ∧ (11 / 10 : ℚ) * p.entry_spread < |obs.1 - obs.2| then
    .closePos
  else .hold

/-- Shallow embedding of the control flow of
`UnifiedArbitrageStrategy._check_position_status`: inside the minimum
hold period nothing is evaluated; then, if add-ons are allowed, none has
happened yet, the add-on hold time has passed and `should_add` holds on
the first spread observation, the add-on branch fires and returns;
otherwise the close decision runs on the second spread observation. -/
def check_position_status (cfg : StrategyConfig) (p : ArbitragePosition)
    (t : ℚ) (addObs closeObs : ℚ × ℚ) : PosAction :=
  if t < cfg.min_hold_time then .protect
  else if cfg.allow_add_position = true ∧ cfg.has_added_position = false ∧
      cfg.add_position_hold_time ≤ t ∧ should_add p addObs = true then .addOn
  else close_decision p closeObs

/-- The inputs of one tick of the `start_monitoring` loop for one
position: the position age in seconds and the mids observed by the two
`get_spread` calls of `_check_position_status`, plus the add-spread of
the add-on trade when its opening-and-hedge protocol succeeds (`none`
models a failed add-on). -/
structure MonitorTickInput where
  t : ℚ
  addObs : ℚ × ℚ
  closeObs : ℚ × ℚ
  addFill : Option ℚ := none
deriving Repr

/-- One tick of the monitoring loop: run `_check_position_status`; when
the add-on branch fires, `self.has_added_position` is set to `True`
unconditionally afterwards, and on a successful add-on the position is
folded by `add_position_fold`. -/
def monitor_step (cfg : StrategyConfig) (p : ArbitragePosition)
    (i : MonitorTickInput) : StrategyConfig × ArbitragePosition × PosAction :=
  match check_position_status cfg p i.t i.addObs i.closeObs with
  | .addOn =>
      let p' := match i.addFill with
        | some s => add_position_fold p p.amount s
        | none => p
      ({ cfg with has_added_position := true }, p', .addOn)
  | a => (cfg, p, a)

/-- The monitoring loop over a list of tick inputs, collecting the
actions taken. -/
def monitor_run (cfg : StrategyConfig) (p : ArbitragePosition) :
    List MonitorTickInput → StrategyConfig × ArbitragePosition × List PosAction
  | [] => (cfg, p, [])
  | i :: rest =>
      let s := monitor_step cfg p i
      let rest' := monitor_run s.1 s.2.1 rest
      (rest'.1, rest'.2.1, s.2.2 :: rest'.2.2)

/-- The order-status record of a fully filled order, as a concrete test
value. -/
def filledStatus : OrderStatusInfo :=
  { status := "filled", filled := 1, amount := 1, remaining := 0 }

/-- A retry environment in which the waited-on order never fills while
the order book and resubmissions always succeed. -/
def neverFillEnv : RetryEnv :=
  { fillsDuringWait := fun _ => false, bookOk := fun _ => true, resubmitOk := fun _ => true }

/-- The strategy configuration with the literal `__init__` defaults. -/
def cfgDefault : StrategyConfig := {}

/-- A freshly created position (status `pending`, as built by
`execute_arbitrage` before any monitoring). -/
def pendingPositionExample : ArbitragePosition :=
  { amount := 1, entry_price_a := 100, entry_price_b := 30, entry_spread := 70 }

/-- An opened convergence position with entry spread 100, as after both
legs confirmed at entry prices 1000 and 900. -/
def convPositionExample : ArbitragePosition :=
  { amount := 1, entry_price_a := 1000, entry_price_b := 900, entry_spread := 100,
    strategy_type := "convergence", status := "opened" }

/-- A monitoring tick, 70 s after entry, observing mids 1200 and 950
(absolute spread 250, beyond 120 % of `convPositionExample` entry spread
100) with a successful add-on at spread 250. -/
def addTickExample : MonitorTickInput :=
  { t := 70, addObs := (1200, 950), closeObs := (1200, 950), addFill := some 250 }

/-- C8: for non-empty books, `get_spread` returns
`spread_1 = Bbid0 - Aask0`, `spread_2 = Abid0 - Bask0`, the best spread
as their maximum, and each mid as `(bid0 + ask0) / 2`; for A bid 100 /
ask 101 and B bid 103 / ask 104 it returns spread_1 = 2, spread_2 = -4,
best = 2 (and mids 100.5, 103.5). -/
theorem c8_get_spread_formulas :
    (∀ (pa qa pb qb : ℚ) (ta ua tb ub : List ℚ),
      get_spread (some ⟨pa :: ta, qa :: ua⟩) (some ⟨pb :: tb, qb :: ub⟩) =
        (pb - qa, pa - qb, max (pb - qa) (pa - qb), (pa + qa) / 2, (pb + qb) / 2)) ∧
    get_spread (some ⟨[100], [101]⟩) (some ⟨[103], [104]⟩) =
      (2, -4, 2, 201 / 2, 207 / 2) :=
  ⟨fun _ _ _ _ _ _ _ _ => rfl, by norm_num [get_spread]⟩

/-- C10: a 404 from the Backpack order-status query is reported as status
`filled` with filled quantity 0, and `_is_order_filled` therefore
classifies such an order as filled. -/
theorem c10_backpack_404_reported_filled :
    (backpack_get_order_status .notFound).status = "filled" ∧
    (backpack_get_order_status .notFound).filled = 0 ∧
    is_order_filled (some (backpack_get_order_status .notFound)) = true := by
  decide

/-- C5 amended: at the moment both legs confirm — i.e. right after
`_update_actual_entry_prices` runs — the stored `entry_spread` equals the
absolute difference of the stored per-leg entry prices. -/
theorem c5_entry_spread_at_open (p : ArbitragePosition) :
    (update_actual_entry_prices p).entry_spread =
      |(update_actual_entry_prices p).entry_price_a -
        (update_actual_entry_prices p).entry_price_b| :=
  rfl

/-- C5 counterexample: the invariant does not hold at every later point
of the position's life: a successful add-on (entry spread 100 at open,
equal-size add-on at spread 250) replaces `entry_spread` by the
quantity-weighted average 175 while the per-leg prices keep the original
fills 1000 and 900, so `entry_spread ≠ |entry_price_a - entry_price_b|`
afterwards. -/
theorem c5_entry_spread_after_addon_counterexample :
    (update_actual_entry_prices convPositionExample).entry_spread =
      |(update_actual_entry_prices convPositionExample).entry_price_a -
        (update_actual_entry_prices convPositionExample).entry_price_b| ∧
    (add_position_fold (update_actual_entry_prices convPositionExample) 1 250).entry_spread ≠
      |(add_position_fold (update_actual_entry_prices convPositionExample) 1 250).entry_price_a -
        (add_position_fold (update_actual_entry_prices convPositionExample) 1 250).entry_price_b| := by
  norm_num [update_actual_entry_prices, add_position_fold, convPositionExample]

/-- C1 counterexample: when both freshly polled statuses report filled in
the same tick (flags still unset), the monitor does not proceed directly
to `opened`: the leg-A branch fires and issues a cancellation of leg B's
order and a compensating hedge placement on leg B — there is no
both-filled branch checked first. -/
theorem c1_both_filled_counterexample :
    tick_ops false false (some filledStatus) (some filledStatus) true =
      [.cancelOrder (.legOrder .B), .fetchBook .B, .placeHedge .B] ∧
    VenueOp.cancelOrder (.legOrder .B) ∈
      tick_ops false false (some filledStatus) (some filledStatus) true ∧
    VenueOp.placeHedge .B ∈
      tick_ops false false (some filledStatus) (some filledStatus) true := by
  decide

/-- C1 amended: in a tick where both statuses report filled and neither
flag is set, the `if/elif` chain selects the leg-A branch (leg B's
same-tick filled status is never consulted), and the tick cancels leg B's
order and places a compensating hedge on leg B, for either cancel
outcome. -/
theorem c1_both_filled_hedges_leg_b (sa sb : OrderStatusInfo) (co : Bool)
    (ha : is_order_filled (some sa) = true) :
    tick_branch false false (some sa) (some sb) = .branchA ∧
    tick_ops false false (some sa) (some sb) co =
      [.cancelOrder (.legOrder .B), .fetchBook .B, .placeHedge .B] := by
  have hbr : tick_branch false false (some sa) (some sb) = .branchA := by
    simp [tick_branch, ha]
  refine ⟨hbr, ?_⟩
  cases co <;> simp [tick_ops, hbr, hedge_ops_until_placement]

/-- C1 witness: the amended statement evaluated at two concrete filled
statuses. -/
theorem c1_witness :
    tick_branch false false (some filledStatus) (some filledStatus) = .branchA ∧
    tick_ops false false (some filledStatus) (some filledStatus) false =
      [.cancelOrder (.legOrder .B), .fetchBook .B, .placeHedge .B] :=
  c1_both_filled_hedges_leg_b filledStatus filledStatus false (by decide)

/-- C3 counterexample: in the hedge branch, after the cancellation of leg
B's order fails, the operations issued up to the compensating placement
contain no status re-check of leg B's order — the escalated order is
submitted without any re-check. -/
theorem c3_no_recheck_counterexample :
    hedge_ops_until_placement .B false =
      [.cancelOrder (.legOrder .B), .fetchBook .B, .placeHedge .B] ∧
    VenueOp.queryStatus (.legOrder .B) ∉ hedge_ops_until_placement .B false := by
  decide

/-- C3 amended: the cancellation of the unfilled leg is requested first,
but its Boolean result is discarded: the operation sequence is identical
for a successful and a failed cancel, contains no status re-check of that
leg's order, and always ends with the compensating hedge placement. -/
theorem c3_cancel_first_no_recheck (l : Leg) (co : Bool) :
    (hedge_ops_until_placement l co).head? = some (.cancelOrder (.legOrder l)) ∧
    hedge_ops_until_placement l co = hedge_ops_until_placement l true ∧
    VenueOp.queryStatus (.legOrder l) ∉ hedge_ops_until_placement l co ∧
    (hedge_ops_until_placement l co).getLast? = some (.placeHedge l) := by
  cases l <;> cases co <;> decide

/-- C3 witness: the amended statement evaluated on leg B with a failed
cancel. -/
theorem c3_witness :
    (hedge_ops_until_placement .B false).head? =
      some (.cancelOrder (.legOrder .B)) ∧
    hedge_ops_until_placement .B false = hedge_ops_until_placement .B true ∧
    VenueOp.queryStatus (.legOrder .B) ∉ hedge_ops_until_placement .B false ∧
    (hedge_ops_until_placement .B false).getLast? = some (.placeHedge .B) :=
  c3_cancel_first_no_recheck .B false

/-- C5 witness: the amended statement evaluated on a freshly opened
position. -/
theorem c5_witness :
    (update_actual_entry_prices pendingPositionExample).entry_spread =
      |(update_actual_entry_prices pendingPositionExample).entry_price_a -
        (update_actual_entry_prices pendingPositionExample).entry_price_b| :=
  c5_entry_spread_at_open pendingPositionExample

/-- C4 counterexample: neither the pair of opening maker-limit
placements nor the pair of per-tick status polls can ever have two venue
calls in flight at once — both fragments are sequential awaits, so the
claimed concurrent issuance fails. -/
theorem c4_sequential_counterexample :
    max_in_flight opening_placement_prog = 1 ∧
    max_in_flight monitor_poll_prog = 1 := by
  decide

/-- C4 amended: only the paired order-book fetches inside `get_spread`
are issued concurrently (`asyncio.gather`, two calls can be in flight);
the two opening placements and the two per-tick status polls are issued
sequentially — the second call starts only after the first completes. -/
theorem c4_only_book_fetch_concurrent :
    max_in_flight get_spread_fetch_prog = 2 ∧
    max_in_flight opening_placement_prog = 1 ∧
    max_in_flight monitor_poll_prog = 1 := by
  decide

theorem should_add_true_iff (p : ArbitragePosition) (ma mb : ℚ) :
    should_add p (ma, mb) = true ↔
      (p.strategy_type = "convergence" ∧
        (6 / 5 : ℚ) * p.entry_spread < |ma - mb|) ∨
      (p.strategy_type = "divergence" ∧
        |ma - mb| < (4 / 5 : ℚ) * p.entry_spread) := by
  have hne : ("convergence" : String) ≠ "divergence" := by decide
  unfold should_add
  by_cases hc : p.strategy_type = "convergence"
  · simp [hc, hne]
  · by_cases hd : p.strategy_type = "divergence"
    · simp [hc, hd]
    · simp [hc, hd]

theorem close_decision_eq_closePos_iff (p : ArbitragePosition) (ma mb : ℚ)
    (hma : ma ≠ 0) (hmb : mb ≠ 0) :
    close_decision p (ma, mb) = .closePos ↔
      (p.strategy_type = "convergence" ∧
        |ma - mb| < (9 / 10 : ℚ) * p.entry_spread) ∨
      (p.strategy_type = "divergence" ∧
        (11 / 10 : ℚ) * p.entry_spread < |ma - mb|) := by
  unfold close_decision
  rw [if_neg (by simp [hma, hmb])]
  by_cases h1 : p.strategy_type = "convergence" ∧
      |ma - mb| < (9 / 10 : ℚ) * p.entry_spread
  · rw [if_pos (by simpa using h1)]
    simp [h1]
  · rw [if_neg (by simpa using h1)]
    by_cases h2 : p.strategy_type = "divergence" ∧
        (11 / 10 : ℚ) * p.entry_spread < |ma - mb|
    · rw [if_pos (by simpa using h2)]
      simp [h2]
    · rw [if_neg (by simpa using h2)]
      simp [h1, h2]

theorem close_decision_zero_mid (p : ArbitragePosition) {ma mb : ℚ}
    (h : ma = 0 ∨ mb = 0) :
    close_decision p (ma, mb) = .skipBadSpread := by
  unfold close_decision
  rw [if_pos (by simpa using h)]

theorem check_position_status_of_no_add (cfg : StrategyConfig)
    (p : ArbitragePosition) (t : ℚ) (addObs closeObs : ℚ × ℚ)
    (ht : ¬ t < cfg.min_hold_time)
    (hC : ¬ (cfg.allow_add_position = true ∧ cfg.has_added_position = false ∧
        cfg.add_position_hold_time ≤ t ∧ should_add p addObs = true)) :
    check_position_status cfg p t addObs closeObs = close_decision p closeObs := by
  unfold check_position_status
  rw [if_neg ht, if_neg hC]

/-- C6: after the minimum hold period and with valid (non-zero) mids, a
convergence position closes exactly when the current absolute mid
difference is below 90 % of its entry spread, and a divergence position
exactly when it is above 110 %; both spread fetches of the tick observe
the same mids. -/
theorem c6_close_exactly_at_thresholds (cfg : StrategyConfig)
    (p : ArbitragePosition) (t ma mb : ℚ)
    (hspread : 0 ≤ p.entry_spread)
    (ht : cfg.min_hold_time ≤ t)
    (hma : ma ≠ 0) (hmb : mb ≠ 0) :
    (p.strategy_type = "convergence" →
      (check_position_status cfg p t (ma, mb) (ma, mb) = .closePos ↔
        |ma - mb| < (9 / 10 : ℚ) * p.entry_spread)) ∧
    (p.strategy_type = "divergence" →
      (check_position_status cfg p t (ma, mb) (ma, mb) = .closePos ↔
        (11 / 10 : ℚ) * p.entry_spread < |ma - mb|)) := by
  have hnt : ¬ t < cfg.min_hold_time := not_lt.mpr ht
  constructor
  · intro hconv
    constructor
    · intro hcp
      by_cases hC : cfg.allow_add_position = true ∧ cfg.has_added_position = false ∧
          cfg.add_position_hold_time ≤ t ∧ should_add p (ma, mb) = true
      · unfold check_position_status at hcp
        rw [if_neg hnt, if_pos hC] at hcp
        exact absurd hcp (by decide)
      · rw [check_position_status_of_no_add cfg p t _ _ hnt hC] at hcp
        rcases (close_decision_eq_closePos_iff p ma mb hma hmb).mp hcp with
          ⟨_, h⟩ | ⟨hdvg, _⟩
        · exact h
        · rw [hconv] at hdvg
          exact absurd hdvg (by decide)
    · intro hlt
      have hC : ¬ (cfg.allow_add_position = true ∧ cfg.has_added_position = false ∧
          cfg.add_position_hold_time ≤ t ∧ should_add p (ma, mb) = true) := by
        rintro ⟨_, _, _, hsa⟩
        rcases (should_add_true_iff p ma mb).mp hsa with ⟨_, h12⟩ | ⟨hdvg, _⟩
        · linarith
        · rw [hconv] at hdvg
          exact absurd hdvg (by decide)
      rw [check_position_status_of_no_add cfg p t _ _ hnt hC]
      exact (close_decision_eq_closePos_iff p ma mb hma hmb).mpr (Or.inl ⟨hconv, hlt⟩)
  · intro hdiv
    constructor
    · intro hcp
      by_cases hC : cfg.allow_add_position = true ∧ cfg.has_added_position = false ∧
          cfg.add_position_hold_time ≤ t ∧ should_add p (ma, mb) = true
      · unfold check_position_status at hcp
        rw [if_neg hnt, if_pos hC] at hcp
        exact absurd hcp (by decide)
      · rw [check_position_status_of_no_add cfg p t _ _ hnt hC] at hcp
        rcases (close_decision_eq_closePos_iff p ma mb hma hmb).mp hcp with
          ⟨hcv, _⟩ | ⟨_, h⟩
        · rw [hdiv] at hcv
          exact absurd hcv (by decide)
        · exact h
    · intro hlt
      have hC : ¬ (cfg.allow_add_position = true ∧ cfg.has_added_position = false ∧
          cfg.add_position_hold_time ≤ t ∧ should_add p (ma, mb) = true) := by
        rintro ⟨_, _, _, hsa⟩
        rcases (should_add_true_iff p ma mb).mp hsa with ⟨hcv, _⟩ | ⟨_, h45⟩
        · rw [hdiv] at hcv
          exact absurd hcv (by decide)
        · linarith
      rw [check_position_status_of_no_add cfg p t _ _ hnt hC]
      exact (close_decision_eq_closePos_iff p ma mb hma hmb).mpr (Or.inr ⟨hdiv, hlt⟩)

/-- C6 witness: entry spread 100, convergence, 70 s after entry, mids
1000 and 915 (current spread 85 < 90): the tick triggers closing. -/
theorem c6_witness :
    check_position_status cfgDefault convPositionExample 70 (1000, 915) (1000, 915) =
      .closePos :=
  ((c6_close_exactly_at_thresholds cfgDefault convPositionExample 70 1000 915
      (by norm_num [convPositionExample]) (by norm_num [cfgDefault])
      (by norm_num) (by norm_num)).1 rfl).mpr
    (by norm_num [convPositionExample])

/-- C9: missing or malformed book data degrades `get_spread` to the
all-zero result (either fetch falsy, or either side of either book
empty), and a zero mid is detected by `_check_position_status`: the tick
never closes, and — once past the hold period with the add-on branch not
firing — it skips with the bad-spread guard. -/
theorem c9_degraded_data_skips_close :
    (∀ b, get_spread none b = (0, 0, 0, 0, 0)) ∧
    (∀ a, get_spread a none = (0, 0, 0, 0, 0)) ∧
    (∀ a b : Book, a.bids = [] ∨ a.asks = [] ∨ b.bids = [] ∨ b.asks = [] →
      get_spread (some a) (some b) = (0, 0, 0, 0, 0)) ∧
    (∀ (cfg : StrategyConfig) (p : ArbitragePosition) (t : ℚ)
        (addObs : ℚ × ℚ) (ma mb : ℚ), ma = 0 ∨ mb = 0 →
      check_position_status cfg p t addObs (ma, mb) ≠ .closePos) ∧
    (∀ (cfg : StrategyConfig) (p : ArbitragePosition) (t : ℚ)
        (addObs : ℚ × ℚ) (ma mb : ℚ), ma = 0 ∨ mb = 0 →
      ¬ t < cfg.min_hold_time →
      ¬ (cfg.allow_add_position = true ∧ cfg.has_added_position = false ∧
          cfg.add_position_hold_time ≤ t ∧ should_add p addObs = true) →
      check_position_status cfg p t addObs (ma, mb) = .skipBadSpread) := by
  refine ⟨?_, ?_, ?_, ?_, ?_⟩
  · intro b
    cases b <;> rfl
  · intro a
    cases a <;> rfl
  · rintro ⟨ab, aa⟩ ⟨bb, ba⟩ h
    rcases ab with _ | ⟨x, ab⟩ <;> rcases aa with _ | ⟨y, aa⟩ <;>
      rcases bb with _ | ⟨z, bb⟩ <;> rcases ba with _ | ⟨w, ba⟩ <;>
      first
        | rfl
        | simp at h
  · intro cfg p t addObs ma mb h
    unfold check_position_status
    split_ifs with h1 h2
    · exact (by decide : PosAction.protect ≠ PosAction.closePos)
    · exact (by decide : PosAction.addOn ≠ PosAction.closePos)
    · rw [close_decision_zero_mid p h]
      exact (by decide : PosAction.skipBadSpread ≠ PosAction.closePos)
  · intro cfg p t addObs ma mb h ht hC
    rw [check_position_status_of_no_add cfg p t _ _ ht hC]
    exact close_decision_zero_mid p h

/-- C9 witness: the position-status check at 70 s (past the hold
period), with the add-on already consumed and the close-side mids
reading `(0, 5)` (failed spread fetch): the tick skips. -/
theorem c9_witness :
    check_position_status { cfgDefault with has_added_position := true }
      convPositionExample 70 (1, 1) (0, 5) = .skipBadSpread :=
  c9_degraded_data_skips_close.2.2.2.2 { cfgDefault with has_added_position := true }
    convPositionExample 70 (1, 1) 0 5 (Or.inl rfl)
    (by norm_num [cfgDefault]) (by simp [cfgDefault])

theorem wait_retry_go_never_fill (env : RetryEnv)
    (h : ∀ k, env.fillsDuringWait k = false) :
    ∀ n r, (wait_retry_go env n r).filled = false ∧
      (wait_retry_go env n r).waitWindows ≤ n ∧
      (wait_retry_go env n r).resubmits ≤ n - 1 := by
  intro n
  induction n with
  | zero =>
    intro r
    exact ⟨rfl, Nat.le_refl 0, Nat.le_refl 0⟩
  | succ m ih =>
    intro r
    simp only [wait_retry_go, h r]
    by_cases hm : m = 0
    · subst hm
      simp
    · rw [if_neg hm]
      cases hbook : env.bookOk r with
      | false => simp
      | true =>
        cases hresub : env.resubmitOk r with
        | false =>
          simp only [Bool.not_true, Bool.false_eq_true, if_false, Bool.not_false, if_true]
          refine ⟨?_, ?_, ?_⟩
          · first
              | rfl
              | trivial
          · omega
          · omega
        | true =>
          obtain ⟨h1, h2, h3⟩ := ih (r + 1)
          simp only [Bool.not_true, Bool.false_eq_true, if_false]
          exact ⟨h1, by omega, by omega⟩

/-- C2 amended: when the compensating order never fills, the retry
helper executes at most 3 bounded 30 s wait windows with at most 2
aggressive resubmissions and returns failure; `execute_arbitrage` then
leaves the position's status unchanged (still `pending`), does not add
it to the active set, and reports failure. -/
theorem c2_exhaustion_reports_failure (env : RetryEnv)
    (h : ∀ k, env.fillsDuringWait k = false)
    (p : ArbitragePosition) (ps : List ArbitragePosition) :
    (wait_for_order_fill_with_retry env).filled = false ∧
    (wait_for_order_fill_with_retry env).waitWindows ≤ 3 ∧
    (wait_for_order_fill_with_retry env).resubmits ≤ 2 ∧
    (execute_arbitrage_finalize p ps false).1.status = p.status ∧
    (execute_arbitrage_finalize p ps false).2.1 = ps ∧
    (execute_arbitrage_finalize p ps false).2.2 = false := by
  obtain ⟨h1, h2, h3⟩ := wait_retry_go_never_fill env h 3 0
  exact ⟨h1, h2, h3, rfl, rfl, rfl⟩

/-- C2 counterexample: with the hedge order never filling (book fetches
and resubmissions fine), the helper runs exactly 3 wait windows and 2
resubmissions and returns failure, after which the position's status is
`pending` — not `failed` as the claim states; no `failed` transition
exists in the strategy. -/
theorem c2_no_failed_status_counterexample :
    (wait_for_order_fill_with_retry neverFillEnv).filled = false ∧
    (wait_for_order_fill_with_retry neverFillEnv).waitWindows = 3 ∧
    (wait_for_order_fill_with_retry neverFillEnv).resubmits = 2 ∧
    (execute_arbitrage_finalize pendingPositionExample [] false).1.status = "pending" ∧
    ("pending" : String) ≠ "failed" :=
  ⟨rfl, rfl, rfl, rfl, by decide⟩

/-- C2 witness: the amended statement evaluated on the concrete
never-filling environment and a fresh pending position. -/
theorem c2_witness :
    (wait_for_order_fill_with_retry neverFillEnv).filled = false ∧
    (wait_for_order_fill_with_retry neverFillEnv).waitWindows ≤ 3 ∧
    (wait_for_order_fill_with_retry neverFillEnv).resubmits ≤ 2 ∧
    (execute_arbitrage_finalize pendingPositionExample [] false).1.status =
      pendingPositionExample.status ∧
    (execute_arbitrage_finalize pendingPositionExample [] false).2.1 = [] ∧
    (execute_arbitrage_finalize pendingPositionExample [] false).2.2 = false :=
  c2_exhaustion_reports_failure neverFillEnv (fun _ => rfl) pendingPositionExample []

theorem close_decision_ne_addOn (p : ArbitragePosition) (obs : ℚ × ℚ) :
    close_decision p obs ≠ .addOn := by
  unfold close_decision
  split_ifs <;> simp

theorem check_position_status_addOn_iff (cfg : StrategyConfig)
    (p : ArbitragePosition) (t : ℚ) (addObs closeObs : ℚ × ℚ) :
    check_position_status cfg p t addObs closeObs = .addOn ↔
      ¬ t < cfg.min_hold_time ∧ cfg.allow_add_position = true ∧
      cfg.has_added_position = false ∧ cfg.add_position_hold_time ≤ t ∧
      should_add p addObs = true := by
  unfold check_position_status
  split_ifs with h1 h2
  · simp [h1]
  · simp [h1, h2]
  · simp [h1, h2, close_decision_ne_addOn]

theorem monitor_step_action (cfg : StrategyConfig) (p : ArbitragePosition)
    (i : MonitorTickInput) :
    (monitor_step cfg p i).2.2 = check_position_status cfg p i.t i.addObs i.closeObs := by
  unfold monitor_step
  cases check_position_status cfg p i.t i.addObs i.closeObs <;> rfl

theorem monitor_step_flag_true (cfg : StrategyConfig) (p : ArbitragePosition)
    (i : MonitorTickInput) (h : cfg.has_added_position = true) :
    ((monitor_step cfg p i).1).has_added_position = true := by
  unfold monitor_step
  cases check_position_status cfg p i.t i.addObs i.closeObs <;> simp [h]

theorem monitor_step_flag_after_addOn (cfg : StrategyConfig)
    (p : ArbitragePosition) (i : MonitorTickInput)
    (h : (monitor_step cfg p i).2.2 = .addOn) :
    ((monitor_step cfg p i).1).has_added_position = true := by
  have hc : check_position_status cfg p i.t i.addObs i.closeObs = .addOn := by
    rw [← monitor_step_action]
    exact h
  unfold monitor_step
  rw [hc]

theorem monitor_run_count_zero_of_flag (l : List MonitorTickInput) :
    ∀ (cfg : StrategyConfig) (p : ArbitragePosition),
      cfg.has_added_position = true →
      ((monitor_run cfg p l).2.2).count .addOn = 0 := by
  induction l with
  | nil =>
    intro cfg p _
    rfl
  | cons i rest ih =>
    intro cfg p h
    have hne : (monitor_step cfg p i).2.2 ≠ .addOn := by
      intro heq
      rw [monitor_step_action, check_position_status_addOn_iff] at heq
      obtain ⟨_, _, hf, _⟩ := heq
      rw [h] at hf
      exact Bool.noConfusion hf
    simp only [monitor_run]
    rw [List.count_cons_of_ne (Ne.symm hne)]
    exact ih (monitor_step cfg p i).1 (monitor_step cfg p i).2.1
      (monitor_step_flag_true cfg p i h)

theorem monitor_run_addOn_le_one (l : List MonitorTickInput) :
    ∀ (cfg : StrategyConfig) (p : ArbitragePosition),
      ((monitor_run cfg p l).2.2).count .addOn ≤ 1 := by
  induction l with
  | nil =>
    intro cfg p
    simp [monitor_run]
  | cons i rest ih =>
    intro cfg p
    simp only [monitor_run]
    by_cases ha : (monitor_step cfg p i).2.2 = .addOn
    · rw [List.count_cons]
      rw [monitor_run_count_zero_of_flag rest (monitor_step cfg p i).1
        (monitor_step cfg p i).2.1 (monitor_step_flag_after_addOn cfg p i ha)]
      split <;> omega
    · rw [List.count_cons_of_ne (Ne.symm ha)]
      exact ih (monitor_step cfg p i).1 (monitor_step cfg p i).2.1

/-- C7: an add-on fires only when add-ons are enabled, none has been
performed yet, both hold times have passed, and the spread has moved
beyond 120 % of the entry spread (convergence) resp. below 80 %
(divergence); and over any monitoring run, at most one tick ever
performs an add-on. -/
theorem c7_at_most_one_addon :
    (∀ (cfg : StrategyConfig) (p : ArbitragePosition) (i : MonitorTickInput),
      (monitor_step cfg p i).2.2 = .addOn →
        cfg.allow_add_position = true ∧ cfg.has_added_position = false ∧
        cfg.add_position_hold_time ≤ i.t ∧ cfg.min_hold_time ≤ i.t ∧
        ((p.strategy_type = "convergence" ∧
            (6 / 5 : ℚ) * p.entry_spread < |i.addObs.1 - i.addObs.2|) ∨
          (p.strategy_type = "divergence" ∧
            |i.addObs.1 - i.addObs.2| < (4 / 5 : ℚ) * p.entry_spread))) ∧
    (∀ (cfg : StrategyConfig) (p : ArbitragePosition) (l : List MonitorTickInput),
      ((monitor_run cfg p l).2.2).count .addOn ≤ 1) := by
  constructor
  · intro cfg p i h
    rw [monitor_step_action, check_position_status_addOn_iff] at h
    obtain ⟨hnt, hallow, hhas, hhold, hsa⟩ := h
    exact ⟨hallow, hhas, hhold, not_lt.mp hnt,
      (should_add_true_iff p i.addObs.1 i.addObs.2).mp hsa⟩
  · intro cfg p l
    exact monitor_run_addOn_le_one l cfg p

/-- C7 witness: a two-tick run in which both ticks satisfy the add-on
conditions still performs at most one add-on. -/
theorem c7_witness :
    ((monitor_run cfgDefault convPositionExample
        [addTickExample, addTickExample]).2.2).count PosAction.addOn ≤ 1 :=
  c7_at_most_one_addon.2 cfgDefault convPositionExample
    [addTickExample, addTickExample]
